import Mathlib

/-!
Verification development for the USStock streaming-quote and signal-analysis core.

The definitions below are shallow embeddings of the TypeScript sources:

- apps/api/src/modules/analysis/indicators/technical.indicators.ts
- apps/api/src/modules/analysis/strategies/sentiment.analyzer.ts
- apps/api/src/modules/analysis/analysis.service.ts  (signal decision block)
- apps/api/src/modules/quotes/quotes.service.ts      (quote cache, subscriptions, history)
- the Polygon streaming adapter                      (reconnect policy)

JavaScript numbers are modelled as rationals, timestamps (epoch milliseconds)
as integers, JS Map objects as functions into Option, and JS Set objects of
callbacks as Finsets of callback identifiers.
-/

namespace USStock

/-! ## Technical indicators (technical.indicators.ts) -/

/-- Embeds calculateSMA (technical.indicators.ts lines 34-38): arithmetic mean
of the last n values, 0 when fewer than n points exist.  The JS slice(-period)
is the list of the last period elements. -/
def calculateSMA (prices : List ℚ) (period : ℕ) : ℚ :=
  if prices.length < period then 0
  else (prices.drop (prices.length - period)).sum / (period : ℚ)

/-- Consecutive differences prices[i] - prices[i-1], as produced by the RSI
loops in calculateRSI (lines 61-82). -/
def diffsOf (prices : List ℚ) : List ℚ :=
  List.zipWith (fun a b => a - b) (prices.drop 1) prices

/-- One iteration of Wilder smoothing, the body of the loop at
technical.indicators.ts lines 73-82. -/
def rsiStep (period : ℕ) (gl : ℚ × ℚ) (d : ℚ) : ℚ × ℚ :=
  if 0 ≤ d then
    ((gl.1 * ((period : ℚ) - 1) + d) / (period : ℚ),
     gl.2 * ((period : ℚ) - 1) / (period : ℚ))
  else
    (gl.1 * ((period : ℚ) - 1) / (period : ℚ),
     (gl.2 * ((period : ℚ) - 1) + |d|) / (period : ℚ))

/-- Seed averages (avgGain, avgLoss) over the first period differences,
technical.indicators.ts lines 58-71. -/
def rsiSeed (period : ℕ) (diffs : List ℚ) : ℚ × ℚ :=
  (((diffs.take period).map fun d => if 0 ≤ d then d else 0).sum / (period : ℚ),
   ((diffs.take period).map fun d => if 0 ≤ d then 0 else |d|).sum / (period : ℚ))

/-- Smoothed (avgGain, avgLoss) after folding the remaining differences,
technical.indicators.ts lines 73-82. -/
def rsiSmoothed (period : ℕ) (diffs : List ℚ) : ℚ × ℚ :=
  (diffs.drop period).foldl (rsiStep period) (rsiSeed period diffs)

/-- Embeds calculateRSI (technical.indicators.ts lines 55-87): 50 with fewer
than period+1 prices, 100 when the smoothed average loss is zero, otherwise
100 - 100/(1 + avgGain/avgLoss). -/
def calculateRSI (prices : List ℚ) (period : ℕ) : ℚ :=
  if prices.length < period + 1 then 50
  else
    let smoothed := rsiSmoothed period (diffsOf prices)
    if smoothed.2 = 0 then 100
    else 100 - 100 / (1 + smoothed.1 / smoothed.2)

/-- Embeds analyzeVolume (technical.indicators.ts lines 164-174): returns
(avgVolume, volumeRatio).  With fewer than 20 points the ratio defaults to 1;
otherwise avgVolume is the SMA(20) of all volumes but the last and the ratio
is current/avgVolume when avgVolume is positive, else 1. -/
def analyzeVolume (volumes : List ℚ) : ℚ × ℚ :=
  if volumes.length < 20 then (0, 1)
  else
    let avgVolume := calculateSMA volumes.dropLast 20
    let currentVolume := volumes.getLastD 0
    let volumeRatio := if 0 < avgVolume then currentVolume / avgVolume else 1
    (avgVolume, volumeRatio)

/-- The volume ratio exactly as the claim words it: current (last) volume
divided by the SMA20 of the volumes preceding the current one.  Spec-side
definition, written for comparison with analyzeVolume. -/
def claimVolumeRatio (volumes : List ℚ) : ℚ :=
  volumes.getLastD 0 / calculateSMA volumes.dropLast 20

/-! ## Signal decision block (analysis.service.ts lines 300-396) -/

inductive SignalType
  | buy
  | sell
  | hold
deriving DecidableEq, Repr

/-- The per-symbol entry of previousSignals (analysis.service.ts line 30). -/
structure PreviousSignal where
  type : SignalType
  score : ℤ
  timestamp : ℤ
deriving DecidableEq, Repr

def BUY_THRESHOLD : ℤ := 15

def SELL_THRESHOLD : ℤ := -15

/-- 10 minutes in milliseconds, analysis.service.ts line 320. -/
def minSignalDuration : ℤ := 10 * 60 * 1000

/-- Embeds the signal determination with hysteresis, analysis.service.ts
lines 315-354.  The argument now is the value of Date.now() at line 319. -/
def determineSignalType (previousSignal : Option PreviousSignal) (now netScore : ℤ) :
    SignalType :=
  match previousSignal with
  | some prev =>
    if now - prev.timestamp < minSignalDuration then
      match prev.type with
      | SignalType.buy =>
        if netScore < SELL_THRESHOLD then SignalType.sell
        else if 0 < netScore then SignalType.buy
        else SignalType.hold
      | SignalType.sell =>
        if BUY_THRESHOLD < netScore then SignalType.buy
        else if netScore < 0 then SignalType.sell
        else SignalType.hold
      | SignalType.hold =>
        if BUY_THRESHOLD ≤ netScore then SignalType.buy
        else if netScore ≤ SELL_THRESHOLD then SignalType.sell
        else SignalType.hold
    else
      if BUY_THRESHOLD ≤ netScore then SignalType.buy
      else if netScore ≤ SELL_THRESHOLD then SignalType.sell
      else SignalType.hold
  | none =>
    if BUY_THRESHOLD ≤ netScore then SignalType.buy
    else if netScore ≤ SELL_THRESHOLD then SignalType.sell
    else SignalType.hold

inductive Volatility
  | high
  | low
  | normal
deriving DecidableEq, Repr

/-- The claim's volatility multiplier table: 1.5 for high, 0.7 for low,
1.0 for normal. -/
def volMultOf (v : Volatility) : ℚ :=
  match v with
  | Volatility.high => 3 / 2
  | Volatility.low => 7 / 10
  | Volatility.normal => 1

/-- The fields of the returned TradingSignal computed by the decision block
(analysis.service.ts lines 385-396) that the claims are about. -/
structure SignalOutcome where
  type : SignalType
  strength : ℤ
  price : ℚ
  targetPrice : Option ℚ
  stopLoss : Option ℚ
deriving DecidableEq, Repr

/-- Embeds the tail of generateSignal (analysis.service.ts lines 304-396):
netScore, signal type with hysteresis, strength, volatility multiplier,
targetPrice and stopLoss.  buyScore and sellScore are the totals accumulated
by the scoring rules of lines 107-299 (integers, as every weight added is an
integer). -/
def generateSignalDecision (currentPrice : ℚ) (buyScore sellScore : ℤ)
    (volatility : Volatility) (previousSignal : Option PreviousSignal) (now : ℤ) :
    SignalOutcome :=
  let netScore := buyScore - sellScore
  let signalType := determineSignalType previousSignal now netScore
  let strength : ℤ := min (round (|(netScore : ℚ)| * (12 / 10))) 100
  let volatilityMultiplier : ℚ :=
    if volatility = Volatility.high then 3 / 2
    else if volatility = Volatility.low then 7 / 10
    else 1
  let targetPrice : Option ℚ :=
    if signalType = SignalType.buy then
      some (currentPrice * (1 + ((strength : ℚ) / 400) * volatilityMultiplier))
    else if signalType = SignalType.sell then
      some (currentPrice * (1 - ((strength : ℚ) / 400) * volatilityMultiplier))
    else none
  let stopLoss : Option ℚ :=
    if signalType = SignalType.buy then
      some (currentPrice * (1 - 5 / 100 * volatilityMultiplier))
    else if signalType = SignalType.sell then
      some (currentPrice * (1 + 5 / 100 * volatilityMultiplier))
    else none
  { type := signalType, strength := strength, price := currentPrice,
    targetPrice := targetPrice, stopLoss := stopLoss }

/-! ## Streaming adapter reconnect policy (PolygonQuotesService) -/

/-- The adapter fields consulted by attemptReconnect: presence of an API key,
the streaming feature flag, the auth-failure latch, the rate-limit release
timestamp and the consecutive-attempt counter (adapter source lines 50-58). -/
structure ReconnectContext where
  apiKeyPresent : Bool
  wsEnabled : Bool
  reconnectBlocked : Bool
  rateLimitUntil : Option ℤ
  reconnectAttempts : ℕ
deriving DecidableEq, Repr

/-- maxReconnectAttempts, adapter source line 55. -/
def maxReconnectAttempts : ℕ := 5

/-- The normal-path branch of attemptReconnect (adapter source lines 193-200):
increment the counter, then schedule a reconnect after
min(1000 * 2 ^ attempts, 30000) milliseconds; give up once the counter has
reached maxReconnectAttempts.  Returns the scheduled delay and the updated
context, or none when no reconnect is scheduled. -/
def reconnectBackoff (ctx : ReconnectContext) : Option (ℤ × ReconnectContext) :=
  if ctx.reconnectAttempts < maxReconnectAttempts then
    let attempts := ctx.reconnectAttempts + 1
    some ((min (1000 * 2 ^ attempts) 30000 : ℤ),
      { ctx with reconnectAttempts := attempts })
  else none

/-- Embeds attemptReconnect (adapter source lines 181-201).  The JS truthiness
test on rateLimitUntil is a null-and-nonzero test. -/
def attemptReconnect (ctx : ReconnectContext) (now : ℤ) :
    Option (ℤ × ReconnectContext) :=
  if !ctx.apiKeyPresent || !ctx.wsEnabled || ctx.reconnectBlocked then none
  else
    match ctx.rateLimitUntil with
    | some u => if u ≠ 0 ∧ now < u then some (u - now, ctx) else reconnectBackoff ctx
    | none => reconnectBackoff ctx

/-! ## Quote cache (quotes.service.ts lines 77-93) -/

/-- The cached StockQuote fields touched or preserved by trade updates. -/
structure StockQuote where
  symbol : String
  price : ℚ
  change : ℚ
  changePercent : ℚ
  volume : ℚ
  timestamp : ℤ
deriving DecidableEq, Repr

/-- A trade event as delivered to handleTradeUpdate (QuoteUpdate interface,
quotes.service.ts lines 6-13); volume is the optional trade size. -/
structure QuoteUpdate where
  symbol : String
  price : ℚ
  volume : Option ℚ
  timestamp : ℤ
deriving DecidableEq, Repr

/-- The quoteCache Map, modelled as a function into Option. -/
abbrev QuoteCache := String → Option StockQuote

/-- Map.set on the quote cache. -/
def cacheSet (cache : QuoteCache) (k : String) (v : Option StockQuote) : QuoteCache :=
  fun k' => if k' = k then v else cache k'

/-- Embeds the cache-update part of handleTradeUpdate (quotes.service.ts
lines 77-93): when the symbol is cached, price and timestamp are overwritten
with the event values and a truthy (nonzero) event volume is added to the
cached cumulative volume; when the symbol is not cached the map is untouched
(only subscribers are notified, which has no cache effect). -/
def handleTradeUpdate (cache : QuoteCache) (update : QuoteUpdate) : QuoteCache :=
  match cache update.symbol with
  | some existing =>
    cacheSet cache update.symbol (some { existing with
      price := update.price,
      timestamp := update.timestamp,
      volume :=
        match update.volume with
        | some v' => if v' ≠ 0 then existing.volume + v' else existing.volume
        | none => existing.volume })
  | none => cache

/-- A concrete one-symbol cache: AAPL cached at price 100, cumulative volume
1000, timestamp 100 ms. -/
def c3Cache : QuoteCache :=
  fun s => if s = "AAPL" then some ⟨"AAPL", 100, 0, 0, 1000, 100⟩ else none

/-- A concrete trade event for AAPL that is older (timestamp 50 ms) than the
cached quote of c3Cache. -/
def c3Event : QuoteUpdate := ⟨"AAPL", 200, some 10, 50⟩

/-! ## Subscription reference counting (quotes.service.ts lines 252-277) -/

/-- The aggregator subscription state: the subscribers Map (symbol to the Set
of registered callbacks, modelled as a Finset of callback identifiers) and,
per adapter, whether the provider-level subscription for a symbol has been
issued (the subscribe/unsubscribe calls of lines 259-260 and 272-273). -/
@[ext]
structure SubscriptionState where
  subscribers : String → Option (Finset ℕ)
  polygonSubscribed : String → Bool
  finnhubSubscribed : String → Bool

/-- Map.set / Map.delete on the subscribers map. -/
def subsSet (m : String → Option (Finset ℕ)) (k : String) (v : Option (Finset ℕ)) :
    String → Option (Finset ℕ) :=
  fun k' => if k' = k then v else m k'

/-- Update of a per-symbol provider-subscription flag. -/
def flagSet (m : String → Bool) (k : String) (v : Bool) : String → Bool :=
  fun k' => if k' = k then v else m k'

/-- Embeds subscribe (quotes.service.ts lines 252-263): a first subscriber for
a symbol creates the empty callback set and issues provider-level subscribes
on both adapters; then the callback is added to the set. -/
def subscribe (st : SubscriptionState) (symbol : String) (cb : ℕ) : SubscriptionState :=
  let st1 : SubscriptionState :=
    match st.subscribers symbol with
    | none =>
      { subscribers := subsSet st.subscribers symbol (some ∅),
        polygonSubscribed := flagSet st.polygonSubscribed symbol true,
        finnhubSubscribed := flagSet st.finnhubSubscribed symbol true }
    | some _ => st
  match st1.subscribers symbol with
  | some callbacks =>
    { st1 with subscribers := subsSet st1.subscribers symbol (some (insert cb callbacks)) }
  | none => st1

/-- Embeds the unsubscribe closure returned by subscribe (quotes.service.ts
lines 266-276): delete the callback; when the set becomes empty, delete the
map entry and issue provider-level unsubscribes on both adapters. -/
def unsubscribe (st : SubscriptionState) (symbol : String) (cb : ℕ) : SubscriptionState :=
  match st.subscribers symbol with
  | none => st
  | some callbacks =>
    let callbacks' := callbacks.erase cb
    if callbacks'.card = 0 then
      { subscribers := subsSet st.subscribers symbol none,
        polygonSubscribed := flagSet st.polygonSubscribed symbol false,
        finnhubSubscribed := flagSet st.finnhubSubscribed symbol false }
    else
      { st with subscribers := subsSet st.subscribers symbol (some callbacks') }

/-! ## History fallback chain (quotes.service.ts lines 135-178) -/

/-- One point of the returned history series. -/
structure StockPriceHistoryPoint where
  timestamp : ℤ
  price : ℚ
deriving DecidableEq, Repr

/-- The Finnhub candle response as inspected by getHistory: status string and
the optional t/c arrays whose entries may be non-numeric (modelled as
Option). -/
structure CandleResponse where
  s : String
  t : Option (List (Option ℤ))
  c : Option (List (Option ℚ))
deriving DecidableEq, Repr

/-- The conversion loop of getHistory (quotes.service.ts lines 161-172): for
each index of the t array, emit a point (timestamp * 1000, price) when both
the timestamp and the matching close are numbers, skipping the rest. -/
def buildCandlePoints (ts : List (Option ℤ)) (cs : List (Option ℚ)) :
    List StockPriceHistoryPoint :=
  (List.range ts.length).filterMap fun index =>
    match (ts.get? index).join, (cs.get? index).join with
    | some timestamp, some price => some ⟨timestamp * 1000, price⟩
    | _, _ => none

/-- The secondary-provider part of getHistory (quotes.service.ts
lines 146-177): convert the Finnhub candles when the response is usable,
otherwise return the empty list. -/
def getHistoryFallback (candles : Option CandleResponse) : List StockPriceHistoryPoint :=
  match candles with
  | some cr =>
    if cr.s = "ok" then
      match cr.t, cr.c with
      | some ts, some cs => buildCandlePoints ts cs
      | _, _ => []
    else []
  | none => []

/-- Embeds getHistory (quotes.service.ts lines 135-178) as a function of the
two provider responses: the Polygon aggregates result (null or a list) and
the Finnhub candle response. -/
def getHistory (polygonData : Option (List StockPriceHistoryPoint))
    (candles : Option CandleResponse) : List StockPriceHistoryPoint :=
  match polygonData with
  | some pd => if 0 < pd.length then pd else getHistoryFallback candles
  | none => getHistoryFallback candles

/-! ## Sentiment analyzer (sentiment.analyzer.ts) -/

/-- JS String.prototype.toLowerCase over the character list (the analysed
keyword lists are ASCII, where the two coincide). -/
def strToLower (s : String) : String :=
  String.mk (s.toList.map Char.toLower)

/-- Helper for whitespace tokenization over the character list. -/
def splitSpacesAux : List Char → List Char → List String
  | [], acc => [String.mk acc.reverse]
  | c :: cs, acc =>
    if c = ' ' then String.mk acc.reverse :: splitSpacesAux cs []
    else splitSpacesAux cs (c :: acc)

/-- The whitespace split of the JS split(regex) tokenizer at
sentiment.analyzer.ts line 93.  Runs of blanks yield empty tokens, which
match no keyword and are therefore inert in the counting loop. -/
def splitSpaces (s : String) : List String :=
  splitSpacesAux s.toList []

/-- Character-list version of a string starting-with test, used to build the
substring test below. -/
def charListStart : List Char → List Char → Bool
  | [], _ => true
  | _ :: _, [] => false
  | a :: as, b :: bs => a == b && charListStart as bs

/-- Character-list substring occurrence test. -/
def charListOccurs : List Char → List Char → Bool
  | needle, [] => charListStart needle []
  | needle, c :: cs => charListStart needle (c :: cs) || charListOccurs needle cs

/-- JS String.prototype.includes: does text contain pattern as a substring. -/
def strIncludes (text pattern : String) : Bool :=
  charListOccurs pattern.toList text.toList

/-- positiveKeywords, sentiment.analyzer.ts lines 20-24. -/
def positiveKeywords : List String :=
  ["upgrade", "beat", "outperform", "growth", "profit", "gain",
   "surge", "rally", "breakout", "bullish", "strong", "record",
   "innovation", "partnership", "acquisition", "expansion"]

/-- negativeKeywords, sentiment.analyzer.ts lines 27-31. -/
def negativeKeywords : List String :=
  ["downgrade", "miss", "underperform", "decline", "loss", "drop",
   "plunge", "crash", "bearish", "weak", "warning", "concern",
   "lawsuit", "investigation", "layoff", "recall", "bankruptcy"]

/-- riskKeywords, sentiment.analyzer.ts lines 34-37. -/
def riskKeywords : List String :=
  ["sec", "investigation", "lawsuit", "fraud", "scandal",
   "recall", "bankruptcy", "default", "debt", "warning"]

/-- The risk-keyword list exactly as the claim words it (with regulator in
place of the sec keyword of the source).  Spec-side definition, written for
comparison with riskKeywords. -/
def riskKeywordsClaim : List String :=
  ["lawsuit", "investigation", "fraud", "recall", "bankruptcy",
   "default", "debt", "regulator", "scandal", "warning"]

/-- topicKeywords of extractTopics, sentiment.analyzer.ts lines 143-147. -/
def topicKeywords : List String :=
  ["earnings", "revenue", "guidance", "merger", "acquisition",
   "dividend", "buyback", "ipo", "split", "offering",
   "fda", "approval", "trial", "patent", "lawsuit"]

/-- Embeds calculateRiskScore (sentiment.analyzer.ts lines 129-139): add 0.2
for every risk keyword occurring in the text, capped at 1. -/
def calculateRiskScore (text : String) : ℚ :=
  min (riskKeywords.foldl (fun acc kw => if strIncludes text kw then acc + 2 / 10 else acc) 0) 1

/-- The per-item risk score exactly as the claim words it, over the claim's
keyword list.  Spec-side definition, written for comparison with
calculateRiskScore. -/
def calculateRiskScoreClaim (text : String) : ℚ :=
  min (riskKeywordsClaim.foldl (fun acc kw => if strIncludes text kw then acc + 2 / 10 else acc) 0) 1

/-- The body of the word loop of calculateTextSentiment (sentiment.analyzer.ts
lines 96-116): a word not yet in the matched set that contains a positive
keyword counts positive; otherwise, if it contains a negative keyword it
counts negative; a counted word is added to the matched set. -/
def sentStep (st : ℕ × ℕ × List String) (word : String) : ℕ × ℕ × List String :=
  match st with
  | (pos, neg, matched) =>
    if (positiveKeywords.any fun kw => strIncludes word kw) && !(matched.contains word) then
      (pos + 1, neg, word :: matched)
    else if !(matched.contains word) && (negativeKeywords.any fun kw => strIncludes word kw) then
      (pos, neg + 1, word :: matched)
    else (pos, neg, matched)

/-- Embeds calculateTextSentiment (sentiment.analyzer.ts lines 90-127):
tokenize the lower-cased text on whitespace, count positive and negative
keyword matches (each word counted at most once, positive checked first),
then score = (pos - neg)/total scaled by min(total/10, 1), clamped to
[-1, 1]; zero matches give 0. -/
def calculateTextSentiment (text : String) : ℚ :=
  let words := splitSpaces (strToLower text)
  let counts := words.foldl sentStep (0, 0, [])
  let totalMatches := counts.1 + counts.2.1
  if totalMatches = 0 then 0
  else
    let rawScore := ((counts.1 : ℚ) - (counts.2.1 : ℚ)) / (totalMatches : ℚ)
    let densityFactor := min ((totalMatches : ℚ) / 10) 1
    max (-1) (min 1 (rawScore * densityFactor))

/-- Embeds extractTopics (sentiment.analyzer.ts lines 141-156): the topic
keywords occurring in the text, in list order. -/
def extractTopics (text : String) : List String :=
  topicKeywords.filter fun topic => strIncludes text topic

inductive SentimentLabel
  | bullish
  | bearish
  | neutral
deriving DecidableEq, Repr

inductive SentimentTrend
  | improving
  | declining
  | stable
deriving DecidableEq, Repr

inductive RiskLevel
  | low
  | medium
  | high
deriving DecidableEq, Repr

/-- The overallSentiment component of the result. -/
structure NewsSentiment where
  score : ℚ
  label : SentimentLabel
  confidence : ℚ
deriving DecidableEq, Repr

/-- The StockNews fields consumed by the sentiment analyzer.  publishedAt is
epoch milliseconds. -/
structure StockNews where
  title : String
  summary : String
  symbols : List String
  publishedAt : ℤ
deriving DecidableEq, Repr

/-- The SentimentAnalysisResult fields of sentiment.analyzer.ts lines 4-13.
The recentNewsScore field (an exponential-decay weighted mean over item ages,
lines 158-171) is omitted from the embedding: it relies on the transcendental
Math.exp and none of the verified claims mentions it.  The timestamp field is
likewise omitted (wall clock only). -/
structure SentimentAnalysisResult where
  symbol : String
  overallSentiment : NewsSentiment
  newsCount : ℕ
  sentimentTrend : SentimentTrend
  keyTopics : List String
  riskLevel : RiskLevel
deriving DecidableEq, Repr

/-- Embeds calculateSentimentTrend (sentiment.analyzer.ts lines 173-186):
compare the mean of the last 3 scores with the mean of the earlier scores. -/
def calculateSentimentTrend (scores : List ℚ) : SentimentTrend :=
  if scores.length < 3 then SentimentTrend.stable
  else
    let recentAvg := (scores.drop (scores.length - 3)).sum / 3
    let olderAvg := (scores.take (scores.length - 3)).sum / ((max (scores.length - 3) 1 : ℕ) : ℚ)
    let diff := recentAvg - olderAvg
    if 1 / 10 < diff then SentimentTrend.improving
    else if diff < -(1 / 10) then SentimentTrend.declining
    else SentimentTrend.stable

/-- The text analysed for one news item: title and summary joined by a space
and lower-cased (sentiment.analyzer.ts line 48). -/
def newsText (item : StockNews) : String :=
  strToLower (item.title ++ " " ++ item.summary)

/-- Embeds analyzeSentiment (sentiment.analyzer.ts lines 39-88): null for an
empty news list; otherwise per-item sentiment scores, their plain mean with
label and confidence, the key topics (first-occurrence order, top 10), the
trend, and the mean risk score mapped to a level. -/
def analyzeSentiment (news : List StockNews) : Option SentimentAnalysisResult :=
  match news with
  | [] => none
  | first :: _ =>
    let symbol :=
      match first.symbols with
      | [] => "UNKNOWN"
      | s :: _ => if s = "" then "UNKNOWN" else s
    let sentimentScores := news.map fun item => calculateTextSentiment (newsText item)
    let keyTopicsList := news.foldl
      (fun acc item => (extractTopics (newsText item)).foldl
        (fun acc' topic => if acc'.contains topic then acc' else acc' ++ [topic]) acc) []
    let riskScore := news.foldl (fun acc item => acc + calculateRiskScore (newsText item)) 0
    let avgScore := sentimentScores.sum / (sentimentScores.length : ℚ)
    let sentimentTrend := calculateSentimentTrend sentimentScores
    let normalizedRisk := riskScore / (news.length : ℚ)
    let riskLevel :=
      if 1 / 2 < normalizedRisk then RiskLevel.high
      else if 1 / 5 < normalizedRisk then RiskLevel.medium
      else RiskLevel.low
    some
      { symbol := symbol,
        overallSentiment :=
          { score := avgScore,
            label :=
              if 1 / 10 < avgScore then SentimentLabel.bullish
              else if avgScore < -(1 / 10) then SentimentLabel.bearish
              else SentimentLabel.neutral,
            confidence := min (|avgScore| * 2) 1 },
        newsCount := news.length,
        sentimentTrend := sentimentTrend,
        keyTopics := keyTopicsList.take 10,
        riskLevel := riskLevel }

/-- The mean per-item risk score across a news list (the normalizedRisk of
analyzeSentiment, sentiment.analyzer.ts line 69). -/
def riskAvg (news : List StockNews) : ℚ :=
  (news.map fun item => calculateRiskScore (newsText item)).sum / (news.length : ℚ)

/-! ## Theorems -/

/-- The signal type committed by the decision block is the hysteresis
determination over netScore = buyScore - sellScore. -/
theorem generateSignalDecision_type (p : ℚ) (b c : ℤ) (v : Volatility)
    (prev : Option PreviousSignal) (now : ℤ) :
    (generateSignalDecision p b c v prev now).type = determineSignalType prev now (b - c) := rfl

/-- Claim C1: with a previous buy committed less than 10 minutes ago, a
netScore of -10 (not crossing the sell threshold -15) commits hold, not sell;
with the previous signal 11 minutes or more in the past, normal thresholds
apply (netScore -10 still holds, -20 sells); symmetrically for a previous
sell and the buy threshold; and with no prior state the normal thresholds
buy at netScore at least 15, sell at netScore at most -15, else hold. -/
theorem signal_hysteresis_correct (t0 now s : ℤ) (p : ℚ) (v : Volatility) :
    (now - t0 < 10 * 60 * 1000 →
      (generateSignalDecision p 0 10 v (some ⟨SignalType.buy, s, t0⟩) now).type
          = SignalType.hold ∧
      (generateSignalDecision p 10 0 v (some ⟨SignalType.sell, s, t0⟩) now).type
          = SignalType.hold) ∧
    (11 * 60 * 1000 ≤ now - t0 →
      (generateSignalDecision p 0 10 v (some ⟨SignalType.buy, s, t0⟩) now).type
          = SignalType.hold ∧
      (generateSignalDecision p 0 20 v (some ⟨SignalType.buy, s, t0⟩) now).type
          = SignalType.sell ∧
      (generateSignalDecision p 10 0 v (some ⟨SignalType.sell, s, t0⟩) now).type
          = SignalType.hold ∧
      (generateSignalDecision p 20 0 v (some ⟨SignalType.sell, s, t0⟩) now).type
          = SignalType.buy) ∧
    (∀ n : ℤ, (generateSignalDecision p n 0 v none now).type =
      if 15 ≤ n then SignalType.buy
      else if n ≤ -15 then SignalType.sell
      else SignalType.hold) := by
  refine ⟨fun h => ?_, fun h => ?_, fun n => ?_⟩
  · have h' : now - t0 < minSignalDuration := by
      simpa [minSignalDuration] using h
    constructor <;>
      simp +decide [generateSignalDecision_type, determineSignalType, h',
        SELL_THRESHOLD, BUY_THRESHOLD]
  · have h' : ¬ (now - t0 < minSignalDuration) := by
      simp only [minSignalDuration]
      omega
    refine ⟨?_, ?_, ?_, ?_⟩ <;>
      simp +decide [generateSignalDecision_type, determineSignalType, h',
        SELL_THRESHOLD, BUY_THRESHOLD]
  · simp only [generateSignalDecision_type, determineSignalType, sub_zero,
      BUY_THRESHOLD, SELL_THRESHOLD]

/-- Witness for C1 at concrete times: previous buy committed at the current
instant (0 minutes old) with netScore -10 holds; with the previous signal 11
minutes old, netScore -20 sells; with no prior state, netScore 20 buys. -/
theorem signal_hysteresis_correct_witness :
    (generateSignalDecision 100 0 10 Volatility.normal
        (some ⟨SignalType.buy, 20, 0⟩) 0).type = SignalType.hold ∧
    (generateSignalDecision 100 0 20 Volatility.normal
        (some ⟨SignalType.buy, 20, 0⟩) (11 * 60 * 1000)).type = SignalType.sell ∧
    (generateSignalDecision 100 20 0 Volatility.normal none 0).type
        = if (15 : ℤ) ≤ 20 then SignalType.buy
          else if (20 : ℤ) ≤ -15 then SignalType.sell
          else SignalType.hold :=
  ⟨((signal_hysteresis_correct 0 0 20 100 Volatility.normal).1 (by decide)).1,
   ((signal_hysteresis_correct 0 (11 * 60 * 1000) 20 100 Volatility.normal).2.1
      (by decide)).2.1,
   (signal_hysteresis_correct 0 0 20 100 Volatility.normal).2.2 20⟩

/-- Claim C7: strength is min(round(netScore magnitude times 1.2), 100);
targetPrice offsets the current price by strength/400 scaled by the
volatility multiplier (1.5 high, 0.7 low, 1.0 normal) upward for buy and
downward for sell; stopLoss offsets by 5 percent scaled by the same
multiplier in the opposite direction; both are undefined for hold. -/
theorem signal_strength_targets (p : ℚ) (b c : ℤ) (v : Volatility)
    (prev : Option PreviousSignal) (now : ℤ) :
    (generateSignalDecision p b c v prev now).strength
        = min (round (|((b - c : ℤ) : ℚ)| * (12 / 10))) 100 ∧
    (generateSignalDecision p b c v prev now).targetPrice
        = (match (generateSignalDecision p b c v prev now).type with
           | SignalType.buy =>
             some (p * (1 + (((generateSignalDecision p b c v prev now).strength : ℚ) / 400)
               * volMultOf v))
           | SignalType.sell =>
             some (p * (1 - (((generateSignalDecision p b c v prev now).strength : ℚ) / 400)
               * volMultOf v))
           | SignalType.hold => none) ∧
    (generateSignalDecision p b c v prev now).stopLoss
        = (match (generateSignalDecision p b c v prev now).type with
           | SignalType.buy => some (p * (1 - 5 / 100 * volMultOf v))
           | SignalType.sell => some (p * (1 + 5 / 100 * volMultOf v))
           | SignalType.hold => none) := by
  refine ⟨rfl, ?_, ?_⟩ <;>
    rcases hty : determineSignalType prev now (b - c) <;> cases v <;>
      simp [generateSignalDecision, volMultOf, hty]

/-- Claim C2 (counterexample): the very first reconnect attempt after a
transport close is scheduled 2000 ms out, not the 1000 ms a 1-second-start
doubling schedule would give. -/
theorem reconnect_first_delay_counterexample :
    (attemptReconnect ⟨true, true, false, none, 0⟩ 0).map Prod.fst = some 2000 ∧
    ((2000 : ℤ) ≠ min (1000 * 2 ^ (1 - 1)) 30000) := by
  constructor
  · decide
  · decide

/-- Claim C2 (amended): under normal conditions (API key present, streaming
enabled, not auth-blocked, no rate limit), the nth consecutive reconnect
attempt (n = a + 1 with a prior failures) is scheduled after
min(1000 * 2 ^ n, 30000) ms — 2 s, 4 s, 8 s, 16 s, 30 s — and after 5
consecutive attempts no further reconnect is scheduled. -/
theorem reconnect_backoff_amended (a : ℕ) (now : ℤ) :
    (a < 5 → attemptReconnect ⟨true, true, false, none, a⟩ now =
      some ((min (1000 * 2 ^ (a + 1)) 30000 : ℤ), ⟨true, true, false, none, a + 1⟩)) ∧
    (5 ≤ a → attemptReconnect ⟨true, true, false, none, a⟩ now = none) := by
  constructor
  · intro h
    simp [attemptReconnect, reconnectBackoff, maxReconnectAttempts, h]
  · intro h
    simp [attemptReconnect, reconnectBackoff, maxReconnectAttempts, Nat.not_lt.mpr h]

/-- Witness for the amended C2 at the first attempt and at exhaustion. -/
theorem reconnect_backoff_amended_witness :
    attemptReconnect ⟨true, true, false, none, 0⟩ 0 =
      some ((min (1000 * 2 ^ (0 + 1)) 30000 : ℤ), ⟨true, true, false, none, 0 + 1⟩) ∧
    attemptReconnect ⟨true, true, false, none, 5⟩ 0 = none :=
  ⟨(reconnect_backoff_amended 0 0).1 (by decide),
   (reconnect_backoff_amended 5 0).2 (by decide)⟩

/-- Claim C3 (counterexample): a trade event whose timestamp (50) is older
than the cached timestamp (100) is not dropped: it overwrites the cached
price and timestamp and accumulates volume, so the cached timestamp
decreases. -/
theorem quote_cache_monotonicity_counterexample :
    (c3Cache "AAPL").map StockQuote.timestamp = some 100 ∧
    c3Event.timestamp = 50 ∧ (50 : ℤ) < 100 ∧
    ((handleTradeUpdate c3Cache c3Event) "AAPL").map StockQuote.timestamp = some 50 ∧
    ((handleTradeUpdate c3Cache c3Event) "AAPL").map StockQuote.price = some 200 ∧
    ((handleTradeUpdate c3Cache c3Event) "AAPL").map StockQuote.volume = some 1010 := by
  refine ⟨?_, ?_, ?_, ?_, ?_, ?_⟩ <;>
    · simp +decide [handleTradeUpdate, c3Cache, c3Event, cacheSet]
      try norm_num

/-- Claim C3 (amended): handleTradeUpdate performs no timestamp ordering
check.  For a cached symbol it unconditionally overwrites price and
timestamp with the event values (adding a nonzero event volume to the
cumulative volume) and leaves other symbols untouched; an event for an
uncached symbol leaves the cache unchanged. -/
theorem quote_cache_update_amended (cache : QuoteCache) (u : QuoteUpdate) :
    (cache u.symbol = none → handleTradeUpdate cache u = cache) ∧
    (∀ q, cache u.symbol = some q →
      (handleTradeUpdate cache u) u.symbol = some { q with
          price := u.price,
          timestamp := u.timestamp,
          volume :=
            match u.volume with
            | some v' => if v' ≠ 0 then q.volume + v' else q.volume
            | none => q.volume } ∧
      ∀ s, s ≠ u.symbol → (handleTradeUpdate cache u) s = cache s) := by
  constructor
  · intro h
    simp [handleTradeUpdate, h]
  · intro q h
    constructor
    · simp [handleTradeUpdate, h, cacheSet]
    · intro s hs
      simp [handleTradeUpdate, h, cacheSet, hs]

/-- Witness for the amended C3: updating AAPL leaves a different symbol's
cache entry unchanged. -/
theorem quote_cache_update_amended_witness :
    (handleTradeUpdate c3Cache c3Event) "MSFT" = c3Cache "MSFT" :=
  ((quote_cache_update_amended c3Cache c3Event).2 ⟨"AAPL", 100, 0, 0, 1000, 100⟩ rfl).2
    "MSFT" (by decide)

/-- Pointwise evaluation of a subscribers-map update at the written key. -/
@[simp]
theorem subsSet_self (m : String → Option (Finset ℕ)) (k : String) (v : Option (Finset ℕ)) :
    subsSet m k v k = v := by
  simp [subsSet]

/-- Pointwise evaluation of a provider-flag update at the written key. -/
@[simp]
theorem flagSet_self (m : String → Bool) (k : String) (v : Bool) : flagSet m k v k = v := by
  simp [flagSet]

/-- Two consecutive writes to the same key collapse to the second write. -/
theorem subsSet_subsSet (m : String → Option (Finset ℕ)) (k : String)
    (v w : Option (Finset ℕ)) : subsSet (subsSet m k v) k w = subsSet m k w := by
  funext k'
  by_cases hk : k' = k <;> simp [subsSet, hk]

/-- A first subscriber for a symbol creates the singleton callback set and
flips both provider flags on. -/
theorem subscribe_none_eq (st : SubscriptionState) (symbol : String) (cb : ℕ)
    (h : st.subscribers symbol = none) :
    subscribe st symbol cb =
      ⟨subsSet st.subscribers symbol (some {cb}),
       flagSet st.polygonSubscribed symbol true,
       flagSet st.finnhubSubscribed symbol true⟩ := by
  simp only [subscribe, h, subsSet_self]
  simp [subsSet_subsSet]

/-- A later subscriber for a symbol only enlarges the callback set. -/
theorem subscribe_some_eq (st : SubscriptionState) (symbol : String) (cb : ℕ)
    (cs : Finset ℕ) (h : st.subscribers symbol = some cs) :
    subscribe st symbol cb =
      { st with subscribers := subsSet st.subscribers symbol (some (insert cb cs)) } := by
  simp only [subscribe, h]

/-- Unsubscribing a symbol with no entry is the identity. -/
theorem unsubscribe_none_eq (st : SubscriptionState) (symbol : String) (cb : ℕ)
    (h : st.subscribers symbol = none) : unsubscribe st symbol cb = st := by
  simp only [unsubscribe, h]

/-- Unsubscribing the last callback deletes the entry and flips both provider
flags off. -/
theorem unsubscribe_last_eq (st : SubscriptionState) (symbol : String) (cb : ℕ)
    (cs : Finset ℕ) (h : st.subscribers symbol = some cs) (hc : (cs.erase cb).card = 0) :
    unsubscribe st symbol cb =
      ⟨subsSet st.subscribers symbol none,
       flagSet st.polygonSubscribed symbol false,
       flagSet st.finnhubSubscribed symbol false⟩ := by
  simp only [unsubscribe, h, hc, if_pos]

/-- Unsubscribing a callback that does not empty the set only shrinks the
set and leaves the provider flags alone. -/
theorem unsubscribe_keep_eq (st : SubscriptionState) (symbol : String) (cb : ℕ)
    (cs : Finset ℕ) (h : st.subscribers symbol = some cs) (hc : (cs.erase cb).card ≠ 0) :
    unsubscribe st symbol cb =
      { st with subscribers := subsSet st.subscribers symbol (some (cs.erase cb)) } := by
  simp only [unsubscribe, h, hc, if_neg, ite_false]

/-- Claim C4: the first subscriber for a symbol issues provider-level
subscribes on both adapters; subscribing twice then unsubscribing once
leaves the provider subscriptions active with one subscriber left;
unsubscribing the remaining subscriber empties the entry and issues
provider-level unsubscribes; and running the same unsubscribe handle a
second time is a no-op (unsubscribe is idempotent on the whole state, so
the subscriber count, a Finset cardinality, can never go negative). -/
theorem subscription_refcount (st : SubscriptionState) (symbol : String) (cb cb1 cb2 : ℕ)
    (h0 : st.subscribers symbol = none) (hne : cb1 ≠ cb2) :
    ((subscribe st symbol cb).polygonSubscribed symbol = true ∧
     (subscribe st symbol cb).finnhubSubscribed symbol = true ∧
     (subscribe st symbol cb).subscribers symbol = some {cb}) ∧
    ((unsubscribe (subscribe (subscribe st symbol cb1) symbol cb2) symbol cb1).polygonSubscribed
        symbol = true ∧
     (unsubscribe (subscribe (subscribe st symbol cb1) symbol cb2) symbol cb1).finnhubSubscribed
        symbol = true ∧
     (unsubscribe (subscribe (subscribe st symbol cb1) symbol cb2) symbol cb1).subscribers
        symbol = some {cb2} ∧
     (unsubscribe (unsubscribe (subscribe (subscribe st symbol cb1) symbol cb2) symbol cb1)
        symbol cb2).subscribers symbol = none ∧
     (unsubscribe (unsubscribe (subscribe (subscribe st symbol cb1) symbol cb2) symbol cb1)
        symbol cb2).polygonSubscribed symbol = false ∧
     (unsubscribe (unsubscribe (subscribe (subscribe st symbol cb1) symbol cb2) symbol cb1)
        symbol cb2).finnhubSubscribed symbol = false) ∧
    (∀ t : SubscriptionState, ∀ sym : String, ∀ c : ℕ,
      unsubscribe (unsubscribe t sym c) sym c = unsubscribe t sym c) := by
  have herase : (insert cb2 ({cb1} : Finset ℕ)).erase cb1 = {cb2} := by
    rw [Finset.erase_insert_of_ne (Ne.symm hne), Finset.erase_singleton]
    rfl
  have e1 := subscribe_none_eq st symbol cb1 h0
  have e2 := subscribe_some_eq (subscribe st symbol cb1) symbol cb2 {cb1}
    (by rw [e1]; exact subsSet_self _ _ _)
  have h2 : (subscribe (subscribe st symbol cb1) symbol cb2).subscribers symbol
      = some (insert cb2 {cb1}) := by
    rw [e2]
    exact subsSet_self _ _ _
  have e3 := unsubscribe_keep_eq (subscribe (subscribe st symbol cb1) symbol cb2) symbol cb1
    (insert cb2 {cb1}) h2 (by rw [herase]; simp)
  have h3 : (unsubscribe (subscribe (subscribe st symbol cb1) symbol cb2) symbol cb1).subscribers
      symbol = some {cb2} := by
    rw [e3]
    simp [herase]
  have e4 := unsubscribe_last_eq
    (unsubscribe (subscribe (subscribe st symbol cb1) symbol cb2) symbol cb1) symbol cb2 {cb2}
    h3 (by simp)
  refine ⟨?_, ⟨?_, ?_, h3, ?_, ?_, ?_⟩, ?_⟩
  · rw [subscribe_none_eq st symbol cb h0]
    simp
  · rw [e3, e2, e1]
    simp
  · rw [e3, e2, e1]
    simp
  · rw [e4]
    simp
  · rw [e4]
    simp
  · rw [e4]
    simp
  · intro t sym c
    rcases ht : t.subscribers sym with _ | cs
    · rw [unsubscribe_none_eq t sym c ht]
      exact unsubscribe_none_eq t sym c ht
    · by_cases hcard : (cs.erase c).card = 0
      · rw [unsubscribe_last_eq t sym c cs ht hcard]
        exact unsubscribe_none_eq _ _ _ (subsSet_self _ _ _)
      · rw [unsubscribe_keep_eq t sym c cs ht hcard]
        rw [unsubscribe_keep_eq _ sym c (cs.erase c) (subsSet_self _ _ _)
          (by rwa [Finset.erase_idem])]
        rw [Finset.erase_idem, subsSet_subsSet]

/-- Witness for C4 with a fresh state, symbol AAPL and callbacks 0 and 1. -/
theorem subscription_refcount_witness :
    (subscribe ⟨fun _ => none, fun _ => false, fun _ => false⟩ "AAPL" 0).polygonSubscribed
      "AAPL" = true :=
  (subscription_refcount ⟨fun _ => none, fun _ => false, fun _ => false⟩ "AAPL" 0 0 1 rfl
    (by decide)).1.1

/-- Claim C5: getHistory never fabricates data.  A non-empty primary series
is returned as is; with no primary data, a usable secondary response is
converted by buildCandlePoints and returned (so if it holds no usable
candles the result is empty); with no primary data and no usable secondary
response the result is the empty sequence. -/
theorem getHistory_no_fabrication (polygonData : Option (List StockPriceHistoryPoint))
    (candles : Option CandleResponse) :
    (∀ pd, polygonData = some pd → pd ≠ [] → getHistory polygonData candles = pd) ∧
    ((polygonData = none ∨ polygonData = some []) →
      (∀ cr ts cs, candles = some cr → cr.s = "ok" → cr.t = some ts → cr.c = some cs →
        getHistory polygonData candles = buildCandlePoints ts cs) ∧
      ((∀ cr ts cs, candles = some cr → cr.s = "ok" → cr.t = some ts → cr.c = some cs →
          buildCandlePoints ts cs = []) →
        getHistory polygonData candles = [])) := by
  constructor
  · intro pd hpd hne
    subst hpd
    simp [getHistory, List.length_pos, hne]
  · intro hprim
    have hfall : getHistory polygonData candles = getHistoryFallback candles := by
      rcases hprim with h | h <;> subst h <;> simp [getHistory]
    constructor
    · intro cr ts cs hcr hok ht hc
      subst hcr
      rw [hfall]
      simp [getHistoryFallback, hok, ht, hc]
    · intro hnone
      rw [hfall]
      rcases candles with _ | cr
      · simp [getHistoryFallback]
      · by_cases hok : cr.s = "ok"
        · rcases ht : cr.t with _ | ts
          · simp [getHistoryFallback, hok, ht]
          · rcases hc : cr.c with _ | cs
            · simp [getHistoryFallback, hok, ht, hc]
            · simp only [getHistoryFallback, hok, if_true, ht, hc]
              exact hnone cr ts cs rfl hok ht hc
        · simp [getHistoryFallback, hok]

/-- Witness for C5: a primary series is passed through; with an empty
primary and a usable secondary response, the converted candles (skipping
the non-numeric entry) are returned; with no data anywhere the result is
empty. -/
theorem getHistory_no_fabrication_witness :
    getHistory (some [⟨1, 2⟩]) none = [⟨1, 2⟩] ∧
    getHistory (some []) (some ⟨"ok", some [some 1, none], some [some 5, some 6]⟩)
      = buildCandlePoints [some 1, none] [some 5, some 6] ∧
    getHistory none none = [] :=
  ⟨(getHistory_no_fabrication (some [⟨1, 2⟩]) none).1 [⟨1, 2⟩] rfl (by simp),
   ((getHistory_no_fabrication (some [])
      (some ⟨"ok", some [some 1, none], some [some 5, some 6]⟩)).2 (Or.inr rfl)).1
     ⟨"ok", some [some 1, none], some [some 5, some 6]⟩ [some 1, none] [some 5, some 6]
     rfl rfl rfl rfl,
   ((getHistory_no_fabrication none none).2 (Or.inl rfl)).2 (by simp)⟩

/-- Claim C9 (counterexample): on a series of exactly 20 identical volumes
the code returns ratio 1, while the claimed formula (current volume over the
SMA20 of the preceding volumes, of which there are only 19) evaluates to a
division by the SMA sentinel 0 and cannot equal the returned ratio. -/
theorem volume_ratio_counterexample :
    20 ≤ (List.replicate 20 (5 : ℚ)).length ∧
    (analyzeVolume (List.replicate 20 (5 : ℚ))).2 = 1 ∧
    claimVolumeRatio (List.replicate 20 (5 : ℚ)) = 0 ∧
    (analyzeVolume (List.replicate 20 (5 : ℚ))).2 ≠ claimVolumeRatio (List.replicate 20 (5 : ℚ)) := by
  refine ⟨by simp, ?_, ?_, ?_⟩ <;>
    simp +decide [analyzeVolume, claimVolumeRatio, calculateSMA]

/-- Claim C9 (amended): the ratio defaults to 1 with fewer than 20 points and
also with exactly 20 points (the 19 preceding volumes make the SMA20 return
its insufficient-data sentinel 0); with at least 21 points and a positive
SMA20 of the 20 preceding volumes the ratio is current volume over that SMA,
and with a non-positive SMA it defaults to 1. -/
theorem volume_ratio_amended (volumes : List ℚ) :
    (volumes.length < 20 → (analyzeVolume volumes).2 = 1) ∧
    (volumes.length = 20 → (analyzeVolume volumes).2 = 1) ∧
    (21 ≤ volumes.length → 0 < calculateSMA volumes.dropLast 20 →
      (analyzeVolume volumes).2 = volumes.getLastD 0 / calculateSMA volumes.dropLast 20) ∧
    (21 ≤ volumes.length → calculateSMA volumes.dropLast 20 ≤ 0 →
      (analyzeVolume volumes).2 = 1) := by
  refine ⟨fun h => ?_, fun h => ?_, fun h hpos => ?_, fun h hnp => ?_⟩
  · simp [analyzeVolume, h]
  · have hz : calculateSMA volumes.dropLast 20 = 0 := by
      have hlt : volumes.dropLast.length < 20 := by
        simp [List.length_dropLast, h]
      simp only [calculateSMA]
      rw [if_pos hlt]
    simp [analyzeVolume, h, hz]
  · have hlen : ¬ volumes.length < 20 := by omega
    simp [analyzeVolume, hlen, hpos]
  · have hlen : ¬ volumes.length < 20 := by omega
    have : ¬ 0 < calculateSMA volumes.dropLast 20 := by linarith
    simp [analyzeVolume, hlen, this]

/-- Witness for the amended C9: a 21-point series with preceding SMA 2 and
current volume 6 yields ratio 3; a 20-point series yields the default 1. -/
theorem volume_ratio_amended_witness :
    (analyzeVolume (List.replicate 20 (2 : ℚ) ++ [6])).2
      = (List.replicate 20 (2 : ℚ) ++ [6]).getLastD 0
        / calculateSMA (List.replicate 20 (2 : ℚ) ++ [6]).dropLast 20 ∧
    (analyzeVolume (List.replicate 20 (7 : ℚ))).2 = 1 :=
  ⟨(volume_ratio_amended (List.replicate 20 (2 : ℚ) ++ [6])).2.2.1 (by simp)
     (by simp +decide [calculateSMA]; norm_num),
   (volume_ratio_amended (List.replicate 20 (7 : ℚ))).2.1 (by simp)⟩

/-- One Wilder smoothing step keeps both running averages nonnegative. -/
theorem rsiStep_nonneg (period : ℕ) (hp : 1 ≤ period) {gl : ℚ × ℚ}
    (h1 : 0 ≤ gl.1) (h2 : 0 ≤ gl.2) (d : ℚ) :
    0 ≤ (rsiStep period gl d).1 ∧ 0 ≤ (rsiStep period gl d).2 := by
  have hq : (0 : ℚ) ≤ (period : ℚ) - 1 := by
    have h1p : (1 : ℚ) ≤ (period : ℚ) := by exact_mod_cast hp
    linarith
  have hppos : (0 : ℚ) ≤ (period : ℚ) := by positivity
  unfold rsiStep
  split_ifs with hd
  · exact ⟨div_nonneg (add_nonneg (mul_nonneg h1 hq) hd) hppos,
      div_nonneg (mul_nonneg h2 hq) hppos⟩
  · exact ⟨div_nonneg (mul_nonneg h1 hq) hppos,
      div_nonneg (add_nonneg (mul_nonneg h2 hq) (abs_nonneg d)) hppos⟩

/-- The smoothing fold keeps both running averages nonnegative. -/
theorem foldl_rsiStep_nonneg (period : ℕ) (hp : 1 ≤ period) (ds : List ℚ)
    (init : ℚ × ℚ) (h1 : 0 ≤ init.1) (h2 : 0 ≤ init.2) :
    0 ≤ (ds.foldl (rsiStep period) init).1 ∧ 0 ≤ (ds.foldl (rsiStep period) init).2 := by
  induction ds generalizing init with
  | nil => exact ⟨h1, h2⟩
  | cons d ds ih =>
    simp only [List.foldl_cons]
    exact ih (rsiStep period init d) (rsiStep_nonneg period hp h1 h2 d).1
      (rsiStep_nonneg period hp h1 h2 d).2

/-- Over nonnegative differences, the smoothing fold keeps a zero average
loss at zero. -/
theorem foldl_rsiStep_loss_zero (period : ℕ) :
    ∀ ds : List ℚ, (∀ d ∈ ds, 0 ≤ d) → ∀ init : ℚ × ℚ, init.2 = 0 →
      (ds.foldl (rsiStep period) init).2 = 0
  | [], _, _, h2 => h2
  | d :: ds, h, init, h2 => by
    simp only [List.foldl_cons]
    refine foldl_rsiStep_loss_zero period ds (fun x hx => h x (List.mem_cons_of_mem _ hx))
      _ ?_
    have hd : 0 ≤ d := h d (List.mem_cons_self _ _)
    simp [rsiStep, if_pos hd, h2]

theorem diffsOf_nil : diffsOf [] = [] := rfl

theorem diffsOf_single (a : ℚ) : diffsOf [a] = [] := rfl

theorem diffsOf_cons_cons (a b : ℚ) (t : List ℚ) :
    diffsOf (a :: b :: t) = (b - a) :: diffsOf (b :: t) := rfl

/-- On a nondecreasing price series every consecutive difference is
nonnegative. -/
theorem diffsOf_nonneg :
    ∀ l : List ℚ, l.Chain' (fun a b => a ≤ b) → ∀ d ∈ diffsOf l, 0 ≤ d
  | [], _, d, hd => by simp [diffsOf_nil] at hd
  | [_], _, d, hd => by simp [diffsOf_single] at hd
  | a :: b :: t, h, d, hd => by
    rw [diffsOf_cons_cons] at hd
    rw [List.chain'_cons] at h
    rcases List.mem_cons.mp hd with rfl | hmem
    · linarith [h.1]
    · exact diffsOf_nonneg (b :: t) h.2 d hmem

/-- The seeded averages are nonnegative. -/
theorem rsiSeed_nonneg (period : ℕ) (diffs : List ℚ) :
    0 ≤ (rsiSeed period diffs).1 ∧ 0 ≤ (rsiSeed period diffs).2 := by
  constructor <;>
  · refine div_nonneg (List.sum_nonneg ?_) (by positivity)
    intro x hx
    simp only [List.mem_map] at hx
    obtain ⟨d, _, rfl⟩ := hx
    split_ifs with hd <;> simp [abs_nonneg, hd]

/-- Over nonnegative differences the seeded average loss is zero. -/
theorem rsiSeed_loss_zero (period : ℕ) (diffs : List ℚ)
    (h : ∀ d ∈ diffs, 0 ≤ d) : (rsiSeed period diffs).2 = 0 := by
  have hsum : ((diffs.take period).map fun d => if 0 ≤ d then 0 else |d|).sum = 0 := by
    apply List.sum_eq_zero
    intro x hx
    simp only [List.mem_map] at hx
    obtain ⟨d, hd, rfl⟩ := hx
    rw [if_pos (h d (List.take_subset _ _ hd))]
  have hdef : (rsiSeed period diffs).2
      = ((diffs.take period).map fun d => if 0 ≤ d then 0 else |d|).sum / (period : ℚ) := rfl
  rw [hdef, hsum, zero_div]

/-- The RSI on a sufficiently long series, written through the smoothed
averages. -/
theorem calculateRSI_eq (prices : List ℚ) (period : ℕ)
    (h : ¬ prices.length < period + 1) :
    calculateRSI prices period =
      if (rsiSmoothed period (diffsOf prices)).2 = 0 then 100
      else 100 - 100 / (1 + (rsiSmoothed period (diffsOf prices)).1
        / (rsiSmoothed period (diffsOf prices)).2) := by
  simp only [calculateRSI]
  rw [if_neg h]

/-- Claim C6: for a series of at least 15 prices the RSI lies in [0, 100];
on a nondecreasing series of at least 15 prices (no losses, so the smoothed
average loss is exactly zero) it is exactly 100; and for a series of fewer
than 15 prices it is exactly 50. -/
theorem rsi_range_and_sentinels (prices : List ℚ) :
    (15 ≤ prices.length → 0 ≤ calculateRSI prices 14 ∧ calculateRSI prices 14 ≤ 100) ∧
    (15 ≤ prices.length → prices.Chain' (fun a b => a ≤ b) →
      calculateRSI prices 14 = 100) ∧
    (prices.length < 15 → calculateRSI prices 14 = 50) := by
  refine ⟨fun h => ?_, fun h hmono => ?_, fun h => ?_⟩
  · have hnot : ¬ prices.length < 14 + 1 := by omega
    rw [calculateRSI_eq _ _ hnot]
    have hnn := foldl_rsiStep_nonneg 14 (by norm_num)
      ((diffsOf prices).drop 14) (rsiSeed 14 (diffsOf prices))
      (rsiSeed_nonneg 14 _).1 (rsiSeed_nonneg 14 _).2
    rw [show ((diffsOf prices).drop 14).foldl (rsiStep 14) (rsiSeed 14 (diffsOf prices))
        = rsiSmoothed 14 (diffsOf prices) from rfl] at hnn
    by_cases hz : (rsiSmoothed 14 (diffsOf prices)).2 = 0
    · rw [if_pos hz]
      norm_num
    · rw [if_neg hz]
      have h2pos : 0 < (rsiSmoothed 14 (diffsOf prices)).2 :=
        lt_of_le_of_ne hnn.2 (Ne.symm hz)
      have hrs : 0 ≤ (rsiSmoothed 14 (diffsOf prices)).1
          / (rsiSmoothed 14 (diffsOf prices)).2 := div_nonneg hnn.1 h2pos.le
      have hd : 0 < 1 + (rsiSmoothed 14 (diffsOf prices)).1
          / (rsiSmoothed 14 (diffsOf prices)).2 := by linarith
      have hx0 : 0 < 100 / (1 + (rsiSmoothed 14 (diffsOf prices)).1
          / (rsiSmoothed 14 (diffsOf prices)).2) := by positivity
      have hx1 : 100 / (1 + (rsiSmoothed 14 (diffsOf prices)).1
          / (rsiSmoothed 14 (diffsOf prices)).2) ≤ 100 := by
        rw [div_le_iff₀ hd]
        nlinarith
      constructor <;> linarith
  · have hnot : ¬ prices.length < 14 + 1 := by omega
    have hall : ∀ d ∈ diffsOf prices, 0 ≤ d := diffsOf_nonneg prices hmono
    have hz : (rsiSmoothed 14 (diffsOf prices)).2 = 0 := by
      unfold rsiSmoothed
      exact foldl_rsiStep_loss_zero 14 ((diffsOf prices).drop 14)
        (fun d hd => hall d (List.drop_subset _ _ hd)) _
        (rsiSeed_loss_zero 14 _ hall)
    rw [calculateRSI_eq _ _ hnot, if_pos hz]
  · simp only [calculateRSI]
    rw [if_pos (by omega)]

/-- Witness for C6: the strictly increasing 15-point series 0..14 has RSI
exactly 100, which lies in [0, 100]; the single-point series has RSI 50. -/
theorem rsi_range_and_sentinels_witness :
    calculateRSI [(0 : ℚ), 1, 2, 3, 4, 5, 6, 7, 8, 9, 10, 11, 12, 13, 14] 14 = 100 ∧
    0 ≤ calculateRSI [(0 : ℚ), 1, 2, 3, 4, 5, 6, 7, 8, 9, 10, 11, 12, 13, 14] 14 ∧
    calculateRSI [(3 : ℚ)] 14 = 50 :=
  ⟨(rsi_range_and_sentinels [(0 : ℚ), 1, 2, 3, 4, 5, 6, 7, 8, 9, 10, 11, 12, 13, 14]).2.1
     (by simp) (by norm_num [List.chain'_cons]),
   ((rsi_range_and_sentinels [(0 : ℚ), 1, 2, 3, 4, 5, 6, 7, 8, 9, 10, 11, 12, 13, 14]).1
     (by simp)).1,
   (rsi_range_and_sentinels [(3 : ℚ)]).2.2 (by simp)⟩

/-- The keyword fold of the risk score is 0.2 per matched keyword. -/
theorem foldl_risk_count (l : List String) (p : String → Bool) (a : ℚ) :
    l.foldl (fun acc kw => if p kw then acc + 2 / 10 else acc) a
      = a + ((l.filter p).length : ℚ) * (2 / 10) := by
  induction l generalizing a with
  | nil => simp
  | cons kw l ih =>
    simp only [List.foldl_cons, List.filter_cons]
    by_cases hp : p kw = true
    · rw [if_pos hp, if_pos hp, ih, List.length_cons]
      push_cast
      ring
    · rw [if_neg hp, if_neg hp, ih]

/-- The per-item accumulation fold is the sum of the mapped values. -/
theorem foldl_add_sum (f : StockNews → ℚ) (l : List StockNews) (a : ℚ) :
    l.foldl (fun acc item => acc + f item) a = a + (l.map f).sum := by
  induction l generalizing a with
  | nil => simp
  | cons x l ih =>
    simp only [List.foldl_cons, List.map_cons, List.sum_cons, ih]
    ring

/-- The risk level of a produced sentiment result is the mean per-item risk
score thresholded at 0.5 and 0.2. -/
theorem analyzeSentiment_riskLevel (news : List StockNews) (r : SentimentAnalysisResult)
    (h : analyzeSentiment news = some r) :
    r.riskLevel = (if 1 / 2 < riskAvg news then RiskLevel.high
      else if 1 / 5 < riskAvg news then RiskLevel.medium
      else RiskLevel.low) := by
  cases news with
  | nil => simp [analyzeSentiment] at h
  | cons first rest =>
    simp only [analyzeSentiment, Option.some.injEq] at h
    subst h
    simp only [riskAvg, foldl_add_sum, zero_add]

/-- Claim C8 (counterexample): the fixed risk-keyword list of the code
contains sec where the claim lists regulator, so the claimed per-item score
disagrees with the code on texts containing either keyword. -/
theorem risk_keyword_counterexample :
    calculateRiskScore "sec charges filed" = 2 / 10 ∧
    calculateRiskScoreClaim "sec charges filed" = 0 ∧
    calculateRiskScore "regulator probe" = 0 ∧
    calculateRiskScoreClaim "regulator probe" = 2 / 10 := by
  refine ⟨?_, ?_, ?_, ?_⟩ <;>
    · simp +decide [calculateRiskScore, calculateRiskScoreClaim, riskKeywords,
        riskKeywordsClaim]
      try norm_num

/-- Claim C8 (amended): the per-item risk score is 0.2 per matched keyword
from the code's fixed list (sec, investigation, lawsuit, fraud, scandal,
recall, bankruptcy, default, debt, warning — the claim's regulator entry is
sec in the code), capped at 1 per item; the aggregate risk is the mean across
items and the level is high above 0.5, medium above 0.2, else low. -/
theorem risk_scoring_amended (text : String) (news : List StockNews)
    (r : SentimentAnalysisResult) (h : analyzeSentiment news = some r) :
    calculateRiskScore text
      = min (((riskKeywords.filter fun kw => strIncludes text kw).length : ℚ) * (2 / 10)) 1 ∧
    r.riskLevel = (if 1 / 2 < riskAvg news then RiskLevel.high
      else if 1 / 5 < riskAvg news then RiskLevel.medium
      else RiskLevel.low) := by
  constructor
  · simp only [calculateRiskScore]
    rw [foldl_risk_count, zero_add]
  · exact analyzeSentiment_riskLevel news r h

/-- Witness for the amended C8 on the text sec and a one-item news list. -/
theorem risk_scoring_amended_witness :
    calculateRiskScore "sec"
      = min (((riskKeywords.filter fun kw => strIncludes "sec" kw).length : ℚ) * (2 / 10)) 1 ∧
    (⟨"X", ⟨0, SentimentLabel.neutral, 0⟩, 1, SentimentTrend.stable, [],
        RiskLevel.low⟩ : SentimentAnalysisResult).riskLevel
      = (if 1 / 2 < riskAvg [⟨"a", "b", ["X"], 0⟩] then RiskLevel.high
         else if 1 / 5 < riskAvg [⟨"a", "b", ["X"], 0⟩] then RiskLevel.medium
         else RiskLevel.low) := by
  have hr : analyzeSentiment [⟨"a", "b", ["X"], 0⟩]
      = some ⟨"X", ⟨0, SentimentLabel.neutral, 0⟩, 1, SentimentTrend.stable, [],
          RiskLevel.low⟩ := by
    simp +decide [analyzeSentiment, calculateTextSentiment, sentStep, newsText,
      extractTopics, calculateRiskScore, calculateSentimentTrend, riskKeywords,
      topicKeywords, positiveKeywords, negativeKeywords]
  exact risk_scoring_amended "sec" _ _ hr

/-- Claim C10: analyzeSentiment returns null exactly on the empty news list;
on a non-empty list it returns a result whose newsCount is the input length
and whose overall sentiment score is the arithmetic mean of the per-item
text-sentiment scores. -/
theorem analyzeSentiment_null_contract (news : List StockNews) :
    (analyzeSentiment news = none ↔ news = []) ∧
    (∀ r, analyzeSentiment news = some r →
      r.newsCount = news.length ∧
      r.overallSentiment.score
        = (news.map fun item => calculateTextSentiment (newsText item)).sum
          / (news.length : ℚ)) := by
  constructor
  · cases news with
    | nil => simp [analyzeSentiment]
    | cons a l => simp [analyzeSentiment]
  · intro r h
    cases news with
    | nil => simp [analyzeSentiment] at h
    | cons a l =>
      simp only [analyzeSentiment, Option.some.injEq] at h
      subst h
      exact ⟨rfl, by rw [List.length_map]⟩

/-- Witness for C10 on the empty list and a concrete one-item list. -/
theorem analyzeSentiment_null_contract_witness :
    (analyzeSentiment ([] : List StockNews) = none ↔ ([] : List StockNews) = []) ∧
    (⟨"X", ⟨0, SentimentLabel.neutral, 0⟩, 1, SentimentTrend.stable, [],
        RiskLevel.low⟩ : SentimentAnalysisResult).newsCount
      = ([⟨"a", "b", ["X"], 0⟩] : List StockNews).length ∧
    (⟨"X", ⟨0, SentimentLabel.neutral, 0⟩, 1, SentimentTrend.stable, [],
        RiskLevel.low⟩ : SentimentAnalysisResult).overallSentiment.score
      = (([⟨"a", "b", ["X"], 0⟩] : List StockNews).map
          fun item => calculateTextSentiment (newsText item)).sum
        / (([⟨"a", "b", ["X"], 0⟩] : List StockNews).length : ℚ) := by
  have hr : analyzeSentiment [⟨"a", "b", ["X"], 0⟩]
      = some ⟨"X", ⟨0, SentimentLabel.neutral, 0⟩, 1, SentimentTrend.stable, [],
          RiskLevel.low⟩ := by
    simp +decide [analyzeSentiment, calculateTextSentiment, sentStep, newsText,
      extractTopics, calculateRiskScore, calculateSentimentTrend, riskKeywords,
      topicKeywords, positiveKeywords, negativeKeywords]
  exact ⟨(analyzeSentiment_null_contract []).1,
    ((analyzeSentiment_null_contract [⟨"a", "b", ["X"], 0⟩]).2 _ hr).1,
    ((analyzeSentiment_null_contract [⟨"a", "b", ["X"], 0⟩]).2 _ hr).2⟩

end USStock
